import Mathlib

/-!
# The receiveBusinessPartner handler of srv/business-partner-handler.js

A shallow embedding of the inbound upsert action.  The handler is a function of

* the storage collaborator (the SELECT / UPDATE / INSERT calls of lines 33, 37 and 49),
  given as a record of three fallible operations over a store state,
* the two clock readings taken by the two `new Date()` expressions of lines 28 and 29,
* the request payload `req.data`, and
* the store state before the call.

It yields the value the handler resolves to, the errors registered through `req.error`,
the storage calls issued (in order) and the store state after the call.
Console output is not modelled.

Timestamps are modelled as the clock instant in milliseconds (a natural number); the
source renders that instant with `toISOString`, whose text order agrees with the numeric
order of instants.
-/

namespace BusinessPartnerHandler

/-- Clock instants in milliseconds. -/
abbrev Timestamp := Nat

/-- The request payload `req.data`.  A field the caller omits is `none`.  The payload may
carry caller-supplied `CreatedAt` and `ModifiedAt` values; the handler never reads them. -/
structure Payload where
  ID : Option String
  FirstName : Option String
  LastName : Option String
  Email : Option String
  Phone : Option String
  Country : Option String
  PartnerType : Option String
  CreatedAt : Option Timestamp
  ModifiedAt : Option Timestamp
deriving DecidableEq, Repr

/-- The shape of the object literal of lines 20-30, which is also the shape of a stored
row: the `ID` (whatever the payload carries, possibly nothing), six nullable strings and
the two timestamps. -/
structure BusinessPartner where
  ID : Option String
  FirstName : Option String
  LastName : Option String
  Email : Option String
  Phone : Option String
  Country : Option String
  PartnerType : Option String
  CreatedAt : Timestamp
  ModifiedAt : Timestamp
deriving DecidableEq, Repr

/-- One call against the storage collaborator. -/
inductive StorageCall where
  | select (id : Option String)
  | update (id : Option String) (row : BusinessPartner)
  | insert (row : BusinessPartner)
deriving DecidableEq, Repr

/-- The lookup is the only read. -/
def StorageCall.isRead : StorageCall → Bool
  | .select _ => true
  | _ => false

/-- Inserts and updates are the writes. -/
def StorageCall.isWrite : StorageCall → Bool
  | .select _ => false
  | _ => true

/-- The storage collaborator as the handler uses it: `SELECT.one ... where ID`,
`UPDATE ... set ... where ID` and `INSERT.into ... entries`.  Each may raise an error, given
by its message text; a call that raises leaves the store as it was. -/
structure Storage (σ : Type) where
  selectOne : σ → Option String → Except String (Option BusinessPartner)
  update : σ → Option String → BusinessPartner → Except String σ
  insert : σ → BusinessPartner → Except String σ

/-- The success value the handler returns (lines 45 and 52). -/
structure Reply where
  message : String
  ID : Option String
deriving DecidableEq, Repr

/-- One `req.error(code, message)` registration (line 57). -/
structure ReqError where
  code : Nat
  message : String
deriving DecidableEq, Repr

/-- Everything observable of one invocation. -/
structure Outcome (σ : Type) where
  returned : Option Reply
  errors : List ReqError
  calls : List StorageCall
  store : σ
deriving DecidableEq, Repr

/-- The object literal of lines 20-30: the payload fields, stamped with the two clock
readings. -/
def businessPartner (now₁ now₂ : Timestamp) (incomingData : Payload) : BusinessPartner :=
  { ID := incomingData.ID
    FirstName := incomingData.FirstName
    LastName := incomingData.LastName
    Email := incomingData.Email
    Phone := incomingData.Phone
    Country := incomingData.Country
    PartnerType := incomingData.PartnerType
    CreatedAt := now₁
    ModifiedAt := now₂ }

/-- The object passed to `set` (lines 38-41): the spread of `businessPartner` with
`CreatedAt` taken from the existing record. -/
def updateSet (bp existing : BusinessPartner) : BusinessPartner :=
  { bp with CreatedAt := existing.CreatedAt }

/-- The reply of line 45. -/
def updatedReply (id : Option String) : Reply :=
  { message := "Business Partner updated successfully", ID := id }

/-- The reply of line 52. -/
def createdReply (id : Option String) : Reply :=
  { message := "Business Partner created successfully", ID := id }

/-- The message of line 57. -/
def failureMessage (detail : String) : String :=
  "Failed to process Business Partner: " ++ detail

/-- The catch block (lines 55-58): one `req.error(500, ...)`, no return value, and the
store as it was before the call. -/
def caught {σ : Type} (calls : List StorageCall) (detail : String) (s : σ) : Outcome σ :=
  { returned := none
    errors := [{ code := 500, message := failureMessage detail }]
    calls := calls
    store := s }

/-- The handler registered for `receiveBusinessPartner` (lines 12-59). -/
def receiveBusinessPartner {σ : Type} (db : Storage σ) (now₁ now₂ : Timestamp)
    (incomingData : Payload) (s : σ) : Outcome σ :=
  let bp := businessPartner now₁ now₂ incomingData
  match db.selectOne s incomingData.ID with
  | .error e => caught [.select incomingData.ID] e s
  | .ok (some existing) =>
    match db.update s incomingData.ID (updateSet bp existing) with
    | .error e =>
      caught [.select incomingData.ID, .update incomingData.ID (updateSet bp existing)] e s
    | .ok s' =>
      { returned := some (updatedReply incomingData.ID)
        errors := []
        calls := [.select incomingData.ID, .update incomingData.ID (updateSet bp existing)]
        store := s' }
  | .ok none =>
    match db.insert s bp with
    | .error e => caught [.select incomingData.ID, .insert bp] e s
    | .ok s' =>
      { returned := some (createdReply incomingData.ID)
        errors := []
        calls := [.select incomingData.ID, .insert bp]
        store := s' }

/-! ## A reference store: one table keyed by `ID` -/

/-- The rows of the `BusinessPartners` table. -/
abbrev Table := List BusinessPartner

/-- Lookup by key: the first row whose `ID` is the given string.  A missing key matches
no row. -/
def tableSelectOne (tbl : Table) (id : Option String) : Option BusinessPartner :=
  match id with
  | none => none
  | some k => tbl.find? (fun r => decide (r.ID = some k))

/-- Update by key: every row whose `ID` is the given string takes the values of the `set`
object, which names every column; an absent value is written as absent. -/
def tableUpdate (tbl : Table) (id : Option String) (row : BusinessPartner) : Table :=
  match id with
  | none => tbl
  | some k => tbl.map (fun r => if r.ID = some k then row else r)

/-- Modelled from the spec: the entity declaration of `BusinessPartners` is not among the
sources; the spec gives `ID` as its primary key.  An insert therefore needs a key that is
present and not yet used; the row is then appended. -/
def tableInsert (tbl : Table) (row : BusinessPartner) : Except String Table :=
  match row.ID with
  | none => .error "NOT NULL constraint failed: BusinessPartners.ID"
  | some k =>
    if (tableSelectOne tbl (some k)).isSome then
      .error "UNIQUE constraint failed: BusinessPartners.ID"
    else
      .ok (tbl ++ [row])

/-- Errors the environment makes a storage call raise (connection loss and the like):
for each operation, the message of the error raised, if any. -/
structure Faults where
  select : Option String
  update : Option String
  insert : Option String
deriving DecidableEq, Repr

/-- No storage call is made to fail. -/
def noFaults : Faults :=
  { select := none, update := none, insert := none }

/-- The table as a storage collaborator, under the given faults. -/
def tableStorage (f : Faults) : Storage Table :=
  { selectOne := fun tbl id =>
      match f.select with
      | some e => .error e
      | none => .ok (tableSelectOne tbl id)
    update := fun tbl id row =>
      match f.update with
      | some e => .error e
      | none => .ok (tableUpdate tbl id row)
    insert := fun tbl row =>
      match f.insert with
      | some e => .error e
      | none => tableInsert tbl row }

/-- The store invariant of the data model: no row is modified before it is created. -/
def timestampsOrdered (tbl : Table) : Prop :=
  ∀ r ∈ tbl, r.CreatedAt ≤ r.ModifiedAt

instance (tbl : Table) : Decidable (timestampsOrdered tbl) := by
  unfold timestampsOrdered; infer_instance

/-! ## Sample data -/

/-- A payload carrying only an `ID`, a first name and a country. -/
def samplePayload (id : String) (country : String) : Payload :=
  { ID := some id, FirstName := some "Ana", LastName := none, Email := none, Phone := none,
    Country := some country, PartnerType := none, CreatedAt := none, ModifiedAt := none }

/-- A stored row for `BP1`, created and last modified at instant 100, with a phone number. -/
def sampleRow : BusinessPartner :=
  { ID := some "BP1", FirstName := some "Ana", LastName := none, Email := none,
    Phone := some "555", Country := some "IN", PartnerType := none,
    CreatedAt := 100, ModifiedAt := 100 }

/-- A payload for `BP1` that also carries caller-supplied timestamps. -/
def stampedPayload : Payload :=
  { samplePayload "BP1" "DE" with CreatedAt := some 5, ModifiedAt := some 6 }

/-- A payload whose `ID` is the empty string. -/
def emptyIdPayload : Payload :=
  { samplePayload "" "IN" with FirstName := none }

/-- The lookup is made to fail with the message `connection lost`. -/
def selectDown : Faults :=
  { select := some "connection lost", update := none, insert := none }

/-! ## The five paths through the handler -/

/-- The lookup raises: the catch block runs after one call. -/
theorem receive_select_error {σ : Type} (db : Storage σ) (now₁ now₂ : Timestamp)
    (req : Payload) (s : σ) (e : String) (hs : db.selectOne s req.ID = .error e) :
    receiveBusinessPartner db now₁ now₂ req s = caught [.select req.ID] e s := by
  simp only [receiveBusinessPartner, hs]

/-- The lookup finds a row and the update raises. -/
theorem receive_update_error {σ : Type} (db : Storage σ) (now₁ now₂ : Timestamp)
    (req : Payload) (s : σ) (existing : BusinessPartner) (e : String)
    (hs : db.selectOne s req.ID = .ok (some existing))
    (hu : db.update s req.ID (updateSet (businessPartner now₁ now₂ req) existing) = .error e) :
    receiveBusinessPartner db now₁ now₂ req s =
      caught [.select req.ID,
        .update req.ID (updateSet (businessPartner now₁ now₂ req) existing)] e s := by
  simp only [receiveBusinessPartner, hs, hu]

/-- The lookup finds a row and the update succeeds. -/
theorem receive_update_ok {σ : Type} (db : Storage σ) (now₁ now₂ : Timestamp)
    (req : Payload) (s t : σ) (existing : BusinessPartner)
    (hs : db.selectOne s req.ID = .ok (some existing))
    (hu : db.update s req.ID (updateSet (businessPartner now₁ now₂ req) existing) = .ok t) :
    receiveBusinessPartner db now₁ now₂ req s =
      { returned := some (updatedReply req.ID)
        errors := []
        calls := [.select req.ID,
          .update req.ID (updateSet (businessPartner now₁ now₂ req) existing)]
        store := t } := by
  simp only [receiveBusinessPartner, hs, hu]

/-- The lookup finds nothing and the insert raises. -/
theorem receive_insert_error {σ : Type} (db : Storage σ) (now₁ now₂ : Timestamp)
    (req : Payload) (s : σ) (e : String)
    (hs : db.selectOne s req.ID = .ok none)
    (hi : db.insert s (businessPartner now₁ now₂ req) = .error e) :
    receiveBusinessPartner db now₁ now₂ req s =
      caught [.select req.ID, .insert (businessPartner now₁ now₂ req)] e s := by
  simp only [receiveBusinessPartner, hs, hi]

/-- The lookup finds nothing and the insert succeeds. -/
theorem receive_insert_ok {σ : Type} (db : Storage σ) (now₁ now₂ : Timestamp)
    (req : Payload) (s t : σ)
    (hs : db.selectOne s req.ID = .ok none)
    (hi : db.insert s (businessPartner now₁ now₂ req) = .ok t) :
    receiveBusinessPartner db now₁ now₂ req s =
      { returned := some (createdReply req.ID)
        errors := []
        calls := [.select req.ID, .insert (businessPartner now₁ now₂ req)]
        store := t } := by
  simp only [receiveBusinessPartner, hs, hi]

/-! ## Facts about the reference store -/

/-- After an update by key, the lookup of that key yields the written row exactly when a
row was there before. -/
theorem tableSelectOne_tableUpdate (tbl : Table) (k : String) (row : BusinessPartner)
    (hrow : row.ID = some k) :
    tableSelectOne (tableUpdate tbl (some k) row) (some k)
      = (tableSelectOne tbl (some k)).map (fun _ => row) := by
  induction tbl with
  | nil => rfl
  | cons r rest ih =>
    simp only [tableSelectOne, tableUpdate] at ih ⊢
    by_cases h : r.ID = some k
    · simp [List.find?, h, hrow]
    · simp [List.find?, h, ih]

/-- After appending a row with a key that was not in the table, the lookup of that key
yields the appended row. -/
theorem tableSelectOne_append (tbl : Table) (k : String) (row : BusinessPartner)
    (hrow : row.ID = some k) (hfresh : tableSelectOne tbl (some k) = none) :
    tableSelectOne (tbl ++ [row]) (some k) = some row := by
  simp only [tableSelectOne] at hfresh ⊢
  rw [List.find?_append, hfresh]
  simp [List.find?, hrow]

/-- A lookup that finds a row was made with a key, and the row carries that key. -/
theorem tableSelectOne_some (tbl : Table) (id : Option String) (old : BusinessPartner)
    (h : tableSelectOne tbl id = some old) : old.ID = id ∧ ∃ k, id = some k := by
  cases id with
  | none => simp [tableSelectOne] at h
  | some k =>
    simp only [tableSelectOne] at h
    have := List.find?_some h
    exact ⟨by simpa using this, k, rfl⟩

/-- The found branch on the reference store: lookup and update succeed. -/
theorem receive_found (f : Faults) (tbl : Table) (now₁ now₂ : Timestamp) (req : Payload)
    (old : BusinessPartner) (hfound : tableSelectOne tbl req.ID = some old)
    (hsel : f.select = none) (hupd : f.update = none) :
    receiveBusinessPartner (tableStorage f) now₁ now₂ req tbl =
      { returned := some (updatedReply req.ID)
        errors := []
        calls := [.select req.ID,
          .update req.ID (updateSet (businessPartner now₁ now₂ req) old)]
        store := tableUpdate tbl req.ID (updateSet (businessPartner now₁ now₂ req) old) } := by
  simp [receiveBusinessPartner, tableStorage, hsel, hupd, hfound]

/-- The not-found branch on the reference store: lookup and insert succeed. -/
theorem receive_fresh (f : Faults) (tbl : Table) (now₁ now₂ : Timestamp) (req : Payload)
    (k : String) (hid : req.ID = some k) (hfresh : tableSelectOne tbl req.ID = none)
    (hsel : f.select = none) (hins : f.insert = none) :
    receiveBusinessPartner (tableStorage f) now₁ now₂ req tbl =
      { returned := some (createdReply req.ID)
        errors := []
        calls := [.select req.ID, .insert (businessPartner now₁ now₂ req)]
        store := tbl ++ [businessPartner now₁ now₂ req] } := by
  have hfresh' : tableSelectOne tbl (some k) = none := by rw [← hid]; exact hfresh
  simp [receiveBusinessPartner, tableStorage, hsel, hins, hfresh, tableInsert,
    businessPartner, hid, hfresh']

/-- The stored row after a successful update of an existing key. -/
theorem lookup_after_update (f : Faults) (tbl : Table) (now₁ now₂ : Timestamp) (req : Payload)
    (old : BusinessPartner) (hfound : tableSelectOne tbl req.ID = some old)
    (hsel : f.select = none) (hupd : f.update = none) :
    tableSelectOne (receiveBusinessPartner (tableStorage f) now₁ now₂ req tbl).store req.ID
      = some (updateSet (businessPartner now₁ now₂ req) old) := by
  rw [receive_found f tbl now₁ now₂ req old hfound hsel hupd]
  obtain ⟨_, k, hk⟩ := tableSelectOne_some tbl req.ID old hfound
  simp only
  rw [hk] at hfound ⊢
  rw [tableSelectOne_tableUpdate tbl k _ (by simp [updateSet, businessPartner, hk]), hfound]
  rfl

/-- The stored row after a successful insert of a fresh key. -/
theorem lookup_after_insert (f : Faults) (tbl : Table) (now₁ now₂ : Timestamp) (req : Payload)
    (k : String) (hid : req.ID = some k) (hfresh : tableSelectOne tbl req.ID = none)
    (hsel : f.select = none) (hins : f.insert = none) :
    tableSelectOne (receiveBusinessPartner (tableStorage f) now₁ now₂ req tbl).store req.ID
      = some (businessPartner now₁ now₂ req) := by
  rw [receive_fresh f tbl now₁ now₂ req k hid hfresh hsel hins]
  simp only
  rw [hid] at hfresh ⊢
  exact tableSelectOne_append tbl k _ (by simp [businessPartner, hid]) hfresh

/-- On the reference store, a handler that returns a value met no fault in the lookup. -/
theorem select_ok_of_returned (f : Faults) (tbl : Table) (now₁ now₂ : Timestamp)
    (req : Payload)
    (hret : (receiveBusinessPartner (tableStorage f) now₁ now₂ req tbl).returned ≠ none) :
    f.select = none := by
  cases hs : f.select with
  | none => rfl
  | some e => simp [receiveBusinessPartner, tableStorage, hs, caught] at hret

/-- On the reference store, a handler that finds a row and returns a value met no fault
in the update. -/
theorem update_ok_of_returned (f : Faults) (tbl : Table) (now₁ now₂ : Timestamp)
    (req : Payload) (old : BusinessPartner) (hfound : tableSelectOne tbl req.ID = some old)
    (hret : (receiveBusinessPartner (tableStorage f) now₁ now₂ req tbl).returned ≠ none) :
    f.update = none := by
  have hs := select_ok_of_returned f tbl now₁ now₂ req hret
  cases hu : f.update with
  | none => rfl
  | some e => simp [receiveBusinessPartner, tableStorage, hs, hu, hfound, caught] at hret

/-- On the reference store, a handler that reports no error met no fault in the lookup. -/
theorem select_ok_of_no_error (f : Faults) (tbl : Table) (now₁ now₂ : Timestamp)
    (req : Payload)
    (hok : (receiveBusinessPartner (tableStorage f) now₁ now₂ req tbl).errors = []) :
    f.select = none := by
  cases hs : f.select with
  | none => rfl
  | some e => simp [receiveBusinessPartner, tableStorage, hs, caught] at hok

/-- On the reference store, a handler that finds a row and reports no error met no fault
in the update. -/
theorem update_ok_of_no_error (f : Faults) (tbl : Table) (now₁ now₂ : Timestamp)
    (req : Payload) (old : BusinessPartner) (hfound : tableSelectOne tbl req.ID = some old)
    (hok : (receiveBusinessPartner (tableStorage f) now₁ now₂ req tbl).errors = []) :
    f.update = none := by
  have hs := select_ok_of_no_error f tbl now₁ now₂ req hok
  cases hu : f.update with
  | none => rfl
  | some e => simp [receiveBusinessPartner, tableStorage, hs, hu, hfound, caught] at hok

/-- On the reference store, a handler that finds no row and reports no error met no fault
in the insert, and the candidate carried an ID. -/
theorem insert_ok_of_no_error (f : Faults) (tbl : Table) (now₁ now₂ : Timestamp)
    (req : Payload) (hfresh : tableSelectOne tbl req.ID = none)
    (hok : (receiveBusinessPartner (tableStorage f) now₁ now₂ req tbl).errors = []) :
    f.insert = none ∧ ∃ k, req.ID = some k := by
  have hs := select_ok_of_no_error f tbl now₁ now₂ req hok
  have hi : f.insert = none := by
    cases hi : f.insert with
    | none => rfl
    | some e => simp [receiveBusinessPartner, tableStorage, hs, hi, hfresh, caught] at hok
  refine ⟨hi, ?_⟩
  cases h : req.ID with
  | some k => exact ⟨k, rfl⟩
  | none =>
    simp [receiveBusinessPartner, tableStorage, hs, hi, h, tableSelectOne,
      tableInsert, businessPartner, caught] at hok

/-- On the reference store, the table after a call is the table before it, or that table
with the rows of the candidate ID replaced by the update row, or that table with the
candidate row appended. -/
theorem store_after (f : Faults) (tbl : Table) (now₁ now₂ : Timestamp) (req : Payload) :
    (receiveBusinessPartner (tableStorage f) now₁ now₂ req tbl).store = tbl ∨
    (∃ old, tableSelectOne tbl req.ID = some old ∧
      (receiveBusinessPartner (tableStorage f) now₁ now₂ req tbl).store
        = tableUpdate tbl req.ID (updateSet (businessPartner now₁ now₂ req) old)) ∨
    (receiveBusinessPartner (tableStorage f) now₁ now₂ req tbl).store
      = tbl ++ [businessPartner now₁ now₂ req] := by
  cases hs : (tableStorage f).selectOne tbl req.ID with
  | error e =>
    rw [receive_select_error _ now₁ now₂ req tbl e hs]
    exact Or.inl rfl
  | ok found =>
    cases found with
    | none =>
      cases hi : (tableStorage f).insert tbl (businessPartner now₁ now₂ req) with
      | error e =>
        rw [receive_insert_error _ now₁ now₂ req tbl e hs hi]
        exact Or.inl rfl
      | ok t =>
        rw [receive_insert_ok _ now₁ now₂ req tbl t hs hi]
        refine Or.inr (Or.inr ?_)
        simp only [tableStorage] at hi
        cases hf : f.insert with
        | some e => simp [hf] at hi
        | none =>
          simp only [hf, tableInsert] at hi
          split at hi
          · simp at hi
          · split at hi
            · simp at hi
            · simp at hi
              exact hi.symm
    | some old =>
      have hfound : tableSelectOne tbl req.ID = some old := by
        simp only [tableStorage] at hs
        cases hf : f.select with
        | some e => simp [hf] at hs
        | none => simpa [hf] using hs
      cases hu : (tableStorage f).update tbl req.ID
          (updateSet (businessPartner now₁ now₂ req) old) with
      | error e =>
        rw [receive_update_error _ now₁ now₂ req tbl old e hs hu]
        exact Or.inl rfl
      | ok t =>
        rw [receive_update_ok _ now₁ now₂ req tbl t old hs hu]
        refine Or.inr (Or.inl ⟨old, hfound, ?_⟩)
        simp only [tableStorage] at hu
        cases hf : f.update with
        | some e => simp [hf] at hu
        | none =>
          simp [hf] at hu
          exact hu.symm

/-! ## The claims -/

/-- C1: on the reference store, when the candidate ID is already present and the lookup and
the update raise no error, the handler returns the reply of line 45, whose message is the
literal text Business Partner updated successfully and whose ID is the candidate ID, and the
CreatedAt stored for that ID after the call is the one stored before it, whatever CreatedAt
the payload carries. -/
theorem C1_update_keeps_CreatedAt (f : Faults) (tbl : Table) (now₁ now₂ : Timestamp)
    (req : Payload) (old : BusinessPartner)
    (hfound : tableSelectOne tbl req.ID = some old)
    (hsel : f.select = none) (hupd : f.update = none) :
    (receiveBusinessPartner (tableStorage f) now₁ now₂ req tbl).returned
        = some { message := "Business Partner updated successfully", ID := req.ID } ∧
    (tableSelectOne (receiveBusinessPartner (tableStorage f) now₁ now₂ req tbl).store
        req.ID).map (fun r => r.CreatedAt) = some old.CreatedAt := by
  refine ⟨?_, ?_⟩
  · rw [receive_found f tbl now₁ now₂ req old hfound hsel hupd]
    rfl
  · rw [lookup_after_update f tbl now₁ now₂ req old hfound hsel hupd]
    rfl

/-- Witness of C1: an update of the stored BP1 row by a payload that carries its own
CreatedAt. -/
theorem C1_update_keeps_CreatedAt_witness :
    (receiveBusinessPartner (tableStorage noFaults) 200 201 stampedPayload
        [sampleRow]).returned
        = some { message := "Business Partner updated successfully", ID := some "BP1" } ∧
    (tableSelectOne (receiveBusinessPartner (tableStorage noFaults) 200 201 stampedPayload
        [sampleRow]).store (some "BP1")).map (fun r => r.CreatedAt) = some 100 :=
  C1_update_keeps_CreatedAt noFaults [sampleRow] 200 201 stampedPayload sampleRow
    (by decide) rfl rfl

/-- C2 at a failing input: the clock advances from 1000 to 1001 between the two readings
of lines 28 and 29; the handler returns the created reply, and the stored row has
CreatedAt 1000 and ModifiedAt 1001, which differ. -/
theorem C2_created_timestamps_differ :
    (receiveBusinessPartner (tableStorage noFaults) 1000 1001 (samplePayload "BP1" "IN")
        []).returned = some (createdReply (some "BP1")) ∧
    ∃ row, tableSelectOne (receiveBusinessPartner (tableStorage noFaults) 1000 1001
        (samplePayload "BP1" "IN") []).store (some "BP1") = some row ∧
      row.CreatedAt = 1000 ∧ row.ModifiedAt = 1001 ∧ row.CreatedAt ≠ row.ModifiedAt :=
  ⟨by decide, businessPartner 1000 1001 (samplePayload "BP1" "IN"), by decide, rfl, rfl,
    by decide⟩

/-- C3 refuted: for a candidate whose ID is the empty string and an empty table, the
handler reports no error at all; it returns the created reply, issues a lookup and an
insert, and leaves a row in the table. -/
theorem C3_empty_id_is_stored :
    (receiveBusinessPartner (tableStorage noFaults) 7 7 emptyIdPayload []).returned
        = some (createdReply (some "")) ∧
    (receiveBusinessPartner (tableStorage noFaults) 7 7 emptyIdPayload []).errors = [] ∧
    (receiveBusinessPartner (tableStorage noFaults) 7 7 emptyIdPayload []).calls
        = [.select (some ""), .insert (businessPartner 7 7 emptyIdPayload)] ∧
    (receiveBusinessPartner (tableStorage noFaults) 7 7 emptyIdPayload []).store ≠ [] := by
  decide

/-- C3 as amended: the handler validates nothing, so a candidate whose ID is missing or the
empty string is handled like every other candidate.  Whatever the storage collaborator and
whatever the candidate, the first storage call is the lookup by the candidate ID, and when
the handler returns no value the one failure it reports is the status 500 report of an
error that a storage call raised. -/
theorem C3_no_validation {σ : Type} (db : Storage σ) (now₁ now₂ : Timestamp) (req : Payload)
    (s : σ) :
    (receiveBusinessPartner db now₁ now₂ req s).calls.head? = some (.select req.ID) ∧
    ((receiveBusinessPartner db now₁ now₂ req s).returned = none →
      ∃ d, (receiveBusinessPartner db now₁ now₂ req s).errors
          = [{ code := 500, message := failureMessage d }] ∧
        (db.selectOne s req.ID = .error d ∨ (∃ row, db.update s req.ID row = .error d) ∨
          ∃ row, db.insert s row = .error d)) := by
  cases hs : db.selectOne s req.ID with
  | error e =>
    rw [receive_select_error db now₁ now₂ req s e hs]
    exact ⟨rfl, fun _ => ⟨e, rfl, Or.inl rfl⟩⟩
  | ok found =>
    cases found with
    | none =>
      cases hi : db.insert s (businessPartner now₁ now₂ req) with
      | error e =>
        rw [receive_insert_error db now₁ now₂ req s e hs hi]
        exact ⟨rfl, fun _ => ⟨e, rfl, Or.inr (Or.inr ⟨_, hi⟩)⟩⟩
      | ok t =>
        rw [receive_insert_ok db now₁ now₂ req s t hs hi]
        exact ⟨rfl, fun h => by simp at h⟩
    | some existing =>
      cases hu : db.update s req.ID (updateSet (businessPartner now₁ now₂ req) existing) with
      | error e =>
        rw [receive_update_error db now₁ now₂ req s existing e hs hu]
        exact ⟨rfl, fun _ => ⟨e, rfl, Or.inr (Or.inl ⟨_, hu⟩)⟩⟩
      | ok t =>
        rw [receive_update_ok db now₁ now₂ req s t existing hs hu]
        exact ⟨rfl, fun h => by simp at h⟩

/-- C4: on the reference store, when a row exists for the candidate ID and the handler
returns, the row then stored for that ID has the candidate value in each of FirstName,
LastName, Email, Phone, Country and PartnerType (so a field the candidate omits is stored
as absent), the second clock reading as ModifiedAt, and the ID and CreatedAt of the old
row. -/
theorem C4_update_replaces_fields (f : Faults) (tbl : Table) (now₁ now₂ : Timestamp)
    (req : Payload) (old : BusinessPartner)
    (hfound : tableSelectOne tbl req.ID = some old)
    (hret : (receiveBusinessPartner (tableStorage f) now₁ now₂ req tbl).returned ≠ none) :
    ∃ row, tableSelectOne (receiveBusinessPartner (tableStorage f) now₁ now₂ req tbl).store
        req.ID = some row ∧
      row.FirstName = req.FirstName ∧ row.LastName = req.LastName ∧
      row.Email = req.Email ∧ row.Phone = req.Phone ∧ row.Country = req.Country ∧
      row.PartnerType = req.PartnerType ∧ row.ModifiedAt = now₂ ∧
      row.ID = old.ID ∧ row.CreatedAt = old.CreatedAt := by
  have hsel := select_ok_of_returned f tbl now₁ now₂ req hret
  have hupd := update_ok_of_returned f tbl now₁ now₂ req old hfound hret
  refine ⟨_, lookup_after_update f tbl now₁ now₂ req old hfound hsel hupd, ?_⟩
  have hold := (tableSelectOne_some tbl req.ID old hfound).1
  simp [updateSet, businessPartner, hold]

/-- Witness of C4: the stored BP1 row has a phone number, the payload omits it. -/
theorem C4_update_replaces_fields_witness :
    ∃ row, tableSelectOne (receiveBusinessPartner (tableStorage noFaults) 200 201
        stampedPayload [sampleRow]).store stampedPayload.ID = some row ∧
      row.FirstName = stampedPayload.FirstName ∧ row.LastName = stampedPayload.LastName ∧
      row.Email = stampedPayload.Email ∧ row.Phone = stampedPayload.Phone ∧
      row.Country = stampedPayload.Country ∧
      row.PartnerType = stampedPayload.PartnerType ∧ row.ModifiedAt = 201 ∧
      row.ID = sampleRow.ID ∧ row.CreatedAt = sampleRow.CreatedAt :=
  C4_update_replaces_fields noFaults [sampleRow] 200 201 stampedPayload sampleRow
    (by decide) (by decide)

/-- C5: on the reference store, when the table holds no row for the candidate ID and the
handler is called twice in sequence with the same candidate, neither call meeting a
storage failure, the first call returns the reply of line 52 (message Business Partner
created successfully, the candidate ID) and the second the reply of line 45 (message
Business Partner updated successfully, the candidate ID), which is not the created reply. -/
theorem C5_created_then_updated (f₁ f₂ : Faults) (tbl : Table)
    (now₁ now₂ now₃ now₄ : Timestamp) (req : Payload)
    (hfresh : tableSelectOne tbl req.ID = none)
    (hok₁ : (receiveBusinessPartner (tableStorage f₁) now₁ now₂ req tbl).errors = [])
    (hok₂ : (receiveBusinessPartner (tableStorage f₂) now₃ now₄ req
        (receiveBusinessPartner (tableStorage f₁) now₁ now₂ req tbl).store).errors = []) :
    (receiveBusinessPartner (tableStorage f₁) now₁ now₂ req tbl).returned
        = some { message := "Business Partner created successfully", ID := req.ID } ∧
    (receiveBusinessPartner (tableStorage f₂) now₃ now₄ req
        (receiveBusinessPartner (tableStorage f₁) now₁ now₂ req tbl).store).returned
        = some { message := "Business Partner updated successfully", ID := req.ID } ∧
    (receiveBusinessPartner (tableStorage f₂) now₃ now₄ req
        (receiveBusinessPartner (tableStorage f₁) now₁ now₂ req tbl).store).returned
        ≠ some { message := "Business Partner created successfully", ID := req.ID } := by
  have hsel₁ := select_ok_of_no_error f₁ tbl now₁ now₂ req hok₁
  obtain ⟨hins₁, k, hid⟩ := insert_ok_of_no_error f₁ tbl now₁ now₂ req hfresh hok₁
  have hfound := lookup_after_insert f₁ tbl now₁ now₂ req k hid hfresh hsel₁ hins₁
  have hfirst := receive_fresh f₁ tbl now₁ now₂ req k hid hfresh hsel₁ hins₁
  have hsel₂ := select_ok_of_no_error f₂ _ now₃ now₄ req hok₂
  have hupd₂ := update_ok_of_no_error f₂ _ now₃ now₄ req _ hfound hok₂
  have hsecond := receive_found f₂ _ now₃ now₄ req _ hfound hsel₂ hupd₂
  refine ⟨by rw [hfirst]; rfl, by rw [hsecond]; rfl, ?_⟩
  rw [hsecond]
  simp [updatedReply]

/-- Witness of C5: BP1 twice on an empty table. -/
theorem C5_created_then_updated_witness :
    (receiveBusinessPartner (tableStorage noFaults) 10 10 (samplePayload "BP1" "IN")
        []).returned
        = some { message := "Business Partner created successfully", ID := some "BP1" } ∧
    (receiveBusinessPartner (tableStorage noFaults) 20 20 (samplePayload "BP1" "IN")
        (receiveBusinessPartner (tableStorage noFaults) 10 10 (samplePayload "BP1" "IN")
          []).store).returned
        = some { message := "Business Partner updated successfully", ID := some "BP1" } ∧
    (receiveBusinessPartner (tableStorage noFaults) 20 20 (samplePayload "BP1" "IN")
        (receiveBusinessPartner (tableStorage noFaults) 10 10 (samplePayload "BP1" "IN")
          []).store).returned
        ≠ some { message := "Business Partner created successfully", ID := some "BP1" } :=
  C5_created_then_updated noFaults noFaults [] 10 10 20 20 (samplePayload "BP1" "IN")
    (by decide) (by decide) (by decide)

/-- C6 refuted: the stored BP1 row was last modified at instant 100 and the call is made
at instant 100; the handler returns the updated reply and the stored ModifiedAt is still
100, not greater than before. -/
theorem C6_same_instant_not_greater :
    (receiveBusinessPartner (tableStorage noFaults) 100 100 (samplePayload "BP1" "DE")
        [sampleRow]).returned = some (updatedReply (some "BP1")) ∧
    ∃ old new, tableSelectOne [sampleRow] (some "BP1") = some old ∧
      tableSelectOne (receiveBusinessPartner (tableStorage noFaults) 100 100
        (samplePayload "BP1" "DE") [sampleRow]).store (some "BP1") = some new ∧
      ¬ old.ModifiedAt < new.ModifiedAt :=
  ⟨by decide, sampleRow, updateSet (businessPartner 100 100 (samplePayload "BP1" "DE")) sampleRow,
    by decide, by decide, by decide⟩

/-- C6 as amended: on the reference store, when the candidate ID is already present and the
handler returns the updated reply, the ModifiedAt stored for that ID equals the clock
reading of the call (line 29), and it is strictly greater than the ModifiedAt stored before
the call whenever that reading is later than the earlier ModifiedAt. -/
theorem C6_ModifiedAt_is_now (f : Faults) (tbl : Table) (now₁ now₂ : Timestamp)
    (req : Payload) (old : BusinessPartner)
    (hfound : tableSelectOne tbl req.ID = some old)
    (hret : (receiveBusinessPartner (tableStorage f) now₁ now₂ req tbl).returned
        = some (updatedReply req.ID)) :
    ∃ new, tableSelectOne (receiveBusinessPartner (tableStorage f) now₁ now₂ req tbl).store
        req.ID = some new ∧
      new.ModifiedAt = now₂ ∧ (old.ModifiedAt < now₂ → old.ModifiedAt < new.ModifiedAt) := by
  have hne : (receiveBusinessPartner (tableStorage f) now₁ now₂ req tbl).returned ≠ none := by
    rw [hret]; simp
  have hsel := select_ok_of_returned f tbl now₁ now₂ req hne
  have hupd := update_ok_of_returned f tbl now₁ now₂ req old hfound hne
  exact ⟨_, lookup_after_update f tbl now₁ now₂ req old hfound hsel hupd, rfl, fun h => h⟩

/-- Witness of C6 as amended: the BP1 row of instant 100 updated at instant 200. -/
theorem C6_ModifiedAt_is_now_witness :
    ∃ new, tableSelectOne (receiveBusinessPartner (tableStorage noFaults) 200 200
        (samplePayload "BP1" "DE") [sampleRow]).store (samplePayload "BP1" "DE").ID
          = some new ∧
      new.ModifiedAt = 200 ∧ (sampleRow.ModifiedAt < 200 → sampleRow.ModifiedAt < new.ModifiedAt) :=
  C6_ModifiedAt_is_now noFaults [sampleRow] 200 200 (samplePayload "BP1" "DE") sampleRow
    (by decide) (by decide)

/-- C7: whatever the storage collaborator, when the lookup, the update or the insert of an
invocation raises an error with detail text e, the handler returns no value, registers
exactly one error, of status 500, whose message is the fixed text followed by e (so it
contains e), leaves the store as it was, and has issued the lookup once and at most one
write: no call is repeated. -/
theorem C7_storage_error_reported {σ : Type} (db : Storage σ) (now₁ now₂ : Timestamp)
    (req : Payload) (s : σ) (e : String)
    (hfail : db.selectOne s req.ID = .error e ∨
      (∃ existing, db.selectOne s req.ID = .ok (some existing) ∧
        db.update s req.ID (updateSet (businessPartner now₁ now₂ req) existing) = .error e) ∨
      (db.selectOne s req.ID = .ok none ∧
        db.insert s (businessPartner now₁ now₂ req) = .error e)) :
    (receiveBusinessPartner db now₁ now₂ req s).returned = none ∧
    (receiveBusinessPartner db now₁ now₂ req s).errors
        = [{ code := 500, message := "Failed to process Business Partner: " ++ e }] ∧
    e.data <:+: ("Failed to process Business Partner: " ++ e).data ∧
    (receiveBusinessPartner db now₁ now₂ req s).store = s ∧
    ((receiveBusinessPartner db now₁ now₂ req s).calls.filter StorageCall.isRead).length = 1 ∧
    ((receiveBusinessPartner db now₁ now₂ req s).calls.filter StorageCall.isWrite).length
        ≤ 1 := by
  have hinfix : e.data <:+: ("Failed to process Business Partner: " ++ e).data := by
    rw [String.data_append]
    exact (List.suffix_append _ _).isInfix
  rcases hfail with hs | ⟨existing, hs, hu⟩ | ⟨hs, hi⟩
  · rw [receive_select_error db now₁ now₂ req s e hs]
    exact ⟨rfl, rfl, hinfix, rfl, by simp [caught, StorageCall.isRead],
      by simp [caught, StorageCall.isWrite]⟩
  · rw [receive_update_error db now₁ now₂ req s existing e hs hu]
    exact ⟨rfl, rfl, hinfix, rfl, by simp [caught, StorageCall.isRead],
      by simp [caught, StorageCall.isWrite]⟩
  · rw [receive_insert_error db now₁ now₂ req s e hs hi]
    exact ⟨rfl, rfl, hinfix, rfl, by simp [caught, StorageCall.isRead],
      by simp [caught, StorageCall.isWrite]⟩

/-- Witness of C7: the lookup fails with the message connection lost. -/
theorem C7_storage_error_reported_witness :
    (receiveBusinessPartner (tableStorage selectDown) 7 7 stampedPayload
        [sampleRow]).returned = none ∧
    (receiveBusinessPartner (tableStorage selectDown) 7 7 stampedPayload [sampleRow]).errors
        = [{ code := 500,
             message := "Failed to process Business Partner: " ++ "connection lost" }] ∧
    "connection lost".data <:+:
      ("Failed to process Business Partner: " ++ "connection lost").data ∧
    (receiveBusinessPartner (tableStorage selectDown) 7 7 stampedPayload [sampleRow]).store
        = [sampleRow] ∧
    ((receiveBusinessPartner (tableStorage selectDown) 7 7 stampedPayload
        [sampleRow]).calls.filter StorageCall.isRead).length = 1 ∧
    ((receiveBusinessPartner (tableStorage selectDown) 7 7 stampedPayload
        [sampleRow]).calls.filter StorageCall.isWrite).length ≤ 1 :=
  C7_storage_error_reported (tableStorage selectDown) 7 7 stampedPayload [sampleRow]
    "connection lost" (Or.inl rfl)

/-- C8 refuted: the stored BP1 row was created and modified at instant 100, so the table
satisfies the invariant; the clock of the call reads 50; after the update the row has
CreatedAt 100 and ModifiedAt 50 and the invariant no longer holds. -/
theorem C8_invariant_broken_by_earlier_clock :
    timestampsOrdered [sampleRow] ∧
    ¬ timestampsOrdered (receiveBusinessPartner (tableStorage noFaults) 50 50
        (samplePayload "BP1" "DE") [sampleRow]).store := by
  decide

/-- C8 as amended: on the reference store, if every stored row has ModifiedAt at least
CreatedAt before a call, the two clock readings of the call do not decrease, and the row
found for the candidate ID (if any) was not created after the second reading, then every
stored row has ModifiedAt at least CreatedAt after the call, for every candidate, on the
insert branch, on the update branch and when a storage call fails. -/
theorem C8_timestampsOrdered_preserved (f : Faults) (tbl : Table) (now₁ now₂ : Timestamp)
    (req : Payload) (hinv : timestampsOrdered tbl) (hclock : now₁ ≤ now₂)
    (hpast : ∀ old, tableSelectOne tbl req.ID = some old → old.CreatedAt ≤ now₂) :
    timestampsOrdered (receiveBusinessPartner (tableStorage f) now₁ now₂ req tbl).store := by
  rcases store_after f tbl now₁ now₂ req with h | ⟨old, hfound, h⟩ | h
  · rw [h]; exact hinv
  · rw [h]
    obtain ⟨_, k, hk⟩ := tableSelectOne_some tbl req.ID old hfound
    intro r hr
    rw [hk] at hr
    simp only [tableUpdate, List.mem_map] at hr
    obtain ⟨r₀, hr₀, rfl⟩ := hr
    split
    · exact hpast old hfound
    · exact hinv r₀ hr₀
  · rw [h]
    intro r hr
    rcases List.mem_append.mp hr with hr | hr
    · exact hinv r hr
    · rw [List.mem_singleton.mp hr]
      exact hclock

/-- Witness of C8 as amended: the BP1 row of instant 100 updated at instants 200 and 201. -/
theorem C8_timestampsOrdered_preserved_witness :
    timestampsOrdered (receiveBusinessPartner (tableStorage noFaults) 200 201
        (samplePayload "BP1" "DE") [sampleRow]).store :=
  C8_timestampsOrdered_preserved noFaults [sampleRow] 200 201 (samplePayload "BP1" "DE")
    (by decide) (by decide) (by decide)

/-- C9: whatever the storage collaborator, two invocations on the same store with the same
clock readings whose payloads agree on ID, FirstName, LastName, Email, Phone, Country and
PartnerType have equal outcomes (returned value, reported errors, storage calls and
resulting store), whatever CreatedAt and ModifiedAt each payload carries. -/
theorem C9_payload_timestamps_ignored {σ : Type} (db : Storage σ) (now₁ now₂ : Timestamp)
    (p q : Payload) (s : σ)
    (hID : p.ID = q.ID) (hFirstName : p.FirstName = q.FirstName)
    (hLastName : p.LastName = q.LastName) (hEmail : p.Email = q.Email)
    (hPhone : p.Phone = q.Phone) (hCountry : p.Country = q.Country)
    (hPartnerType : p.PartnerType = q.PartnerType) :
    receiveBusinessPartner db now₁ now₂ p s = receiveBusinessPartner db now₁ now₂ q s := by
  have hbp : businessPartner now₁ now₂ p = businessPartner now₁ now₂ q := by
    simp [businessPartner, hID, hFirstName, hLastName, hEmail, hPhone, hCountry, hPartnerType]
  simp only [receiveBusinessPartner, hbp, hID]

/-- Witness of C9: the same BP1 payload without and with caller-supplied timestamps. -/
theorem C9_payload_timestamps_ignored_witness :
    receiveBusinessPartner (tableStorage noFaults) 200 201 (samplePayload "BP1" "DE")
        [sampleRow]
      = receiveBusinessPartner (tableStorage noFaults) 200 201 stampedPayload [sampleRow] :=
  C9_payload_timestamps_ignored (tableStorage noFaults) 200 201 (samplePayload "BP1" "DE")
    stampedPayload [sampleRow] rfl rfl rfl rfl rfl rfl rfl

/-- C10 refuted: when the lookup raises, the handler has issued the lookup and no write. -/
theorem C10_failed_lookup_no_write :
    (receiveBusinessPartner (tableStorage selectDown) 7 7 (samplePayload "BP1" "DE")
        [sampleRow]).calls = [.select (some "BP1")] ∧
    ((receiveBusinessPartner (tableStorage selectDown) 7 7 (samplePayload "BP1" "DE")
        [sampleRow]).calls.filter StorageCall.isWrite).length ≠ 1 := by
  decide

/-- C10 as amended: whatever the storage collaborator, every invocation issues exactly one
read, the lookup by ID, as its first storage call; when the lookup succeeds it is followed
by exactly one write (one insert or one update, never both and never neither), and when
the lookup raises no write is issued. -/
theorem C10_one_read_then_one_write {σ : Type} (db : Storage σ) (now₁ now₂ : Timestamp)
    (req : Payload) (s : σ) :
    (receiveBusinessPartner db now₁ now₂ req s).calls.head? = some (.select req.ID) ∧
    (receiveBusinessPartner db now₁ now₂ req s).calls.filter StorageCall.isRead
        = [.select req.ID] ∧
    (match db.selectOne s req.ID with
      | .ok _ => ∃ w, w.isWrite = true ∧
          (receiveBusinessPartner db now₁ now₂ req s).calls = [.select req.ID, w]
      | .error _ => (receiveBusinessPartner db now₁ now₂ req s).calls = [.select req.ID]) := by
  cases hs : db.selectOne s req.ID with
  | error e =>
    rw [receive_select_error db now₁ now₂ req s e hs]
    simp [caught, StorageCall.isRead]
  | ok found =>
    cases found with
    | none =>
      cases hi : db.insert s (businessPartner now₁ now₂ req) with
      | error e =>
        rw [receive_insert_error db now₁ now₂ req s e hs hi]
        simp [caught, StorageCall.isRead, StorageCall.isWrite]
      | ok t =>
        rw [receive_insert_ok db now₁ now₂ req s t hs hi]
        simp [StorageCall.isRead, StorageCall.isWrite]
    | some existing =>
      cases hu : db.update s req.ID (updateSet (businessPartner now₁ now₂ req) existing) with
      | error e =>
        rw [receive_update_error db now₁ now₂ req s existing e hs hu]
        simp [caught, StorageCall.isRead, StorageCall.isWrite]
      | ok t =>
        rw [receive_update_ok db now₁ now₂ req s t existing hs hu]
        simp [StorageCall.isRead, StorageCall.isWrite]

end BusinessPartnerHandler
